import Mathlib

/-!
Verification development for the MCP webhook server (`mcp/mcp_server.py`).

The file shallowly embeds the server's data model and handlers:
* Python `dict`/JSON values become the inductive `JValue`; a Python
  expression that can raise (`obj.get` on a non-dict, `str.lower` on a
  non-string, a failed body parse) is modelled with `Except String`,
  the error string naming the Python exception class.
* `analyze_error`, `create_github_pr`, `receive_sentry_webhook`,
  `process_issue`, `analyze_manual` and `test_analysis` are translated
  function by function from the source.
* The module-level `issues_store` list plus FastAPI's background-task
  queue become an explicit state machine (`SysState`, `execEvent`,
  `execTrace`).  The handlers are `async def`s running on a single
  asyncio event loop, so the code between two `await` points is atomic;
  every store access in the source lies in such an atomic region, which
  is why one intake (respectively one background task) is one event.
* Python floats `0.85` / `0.3` are modelled as the rationals `0.85` and
  `0.3`; the program only ever stores and compares these literals.
* Python `str.lower` is modelled by `Char.toLower` on each character
  (the signatures being matched are pure ASCII).
-/

/-- Python `s.lower()` (ASCII case folding, see header note), mapping
`Char.toLower` over the characters of the string. -/
def lowerPy (s : String) : String := String.mk (s.data.map Char.toLower)

/-- Python `needle.startswith`-style check on character lists. -/
def listStartsWith : List Char → List Char → Bool
  | [], _ => true
  | _ :: _, [] => false
  | a :: as, b :: bs => a == b && listStartsWith as bs

/-- Python `needle in hay` (substring test) on character lists. -/
def listContainsSub (needle : List Char) : List Char → Bool
  | [] => needle.isEmpty
  | b :: bs => listStartsWith needle (b :: bs) || listContainsSub needle bs

/-- The test `error_key.lower() in error_type.lower()` from `analyze_error`. -/
def sigMatches (sig error_type : String) : Bool :=
  listContainsSub (lowerPy sig).toList (lowerPy error_type).toList

/-- Python/JSON values as produced by `await request.json()`; `bytes`
models a Python `bytes` object (only used for unparsed webhook bodies). -/
inductive JValue where
  | null : JValue
  | bool : Bool → JValue
  | num : Int → JValue
  | str : String → JValue
  | arr : List JValue → JValue
  | obj : List (String × JValue) → JValue
  | bytes : String → JValue

/-- Python `dict` lookup (keys are unique in a dict, so first hit wins). -/
def jlookup (m : List (String × JValue)) (k : String) : Option JValue :=
  match m with
  | [] => none
  | (k', v) :: rest => if k' = k then some v else jlookup rest k

/-- One entry of the `fix_database` literal in `analyze_error`. -/
structure FixEntry where
  signature : String
  analysis : String
  fix : String
  patch : String
deriving Repr, DecidableEq

/-- The result dict returned by `analyze_error`.  In the source both
branches return a dict with exactly these five keys; `patch` is `None`
(here `none`) in the fallback branch. -/
structure ClassificationResult where
  error_type : String
  analysis : String
  suggested_fix : String
  patch : Option String
  confidence : ℚ
deriving Repr, DecidableEq

/-- The `fix_database` dict literal of `analyze_error`, in source order
(Python dicts iterate in insertion order). -/
def fix_database : List FixEntry :=
  [{ signature := "ZeroDivisionError",
     analysis := "Division by zero detected. The code attempts to divide a number by zero.",
     fix := "Add a check before division: `if divisor != 0:` or use try-except block.",
     patch := "\n-    result = numerator / divisor\n+    if divisor != 0:\n" ++
       "+        result = numerator / divisor\n+    else:\n" ++
       "+        result = 0  # or raise custom exception\n" },
   { signature := "AttributeError",
     analysis := "Attempting to access an attribute on a None object (NullPointerException equivalent).",
     fix := "Add null check before accessing the attribute: `if obj is not None:`",
     patch := "\n-    return \x7b\"username\": user.name\x7d\n+    if user is not None:\n" ++
       "+        return \x7b\"username\": user.name\x7d\n+    else:\n" ++
       "+        return \x7b\"username\": \"Unknown\"\x7d\n" },
   { signature := "KeyError",
     analysis := "Attempting to access a dictionary key that doesn\x27t exist.",
     fix := "Use .get() method with default value: `dict.get(\x27key\x27, default_value)`",
     patch := "\n-    return \x7b\"email\": api_response[\"email\"]\x7d\n" ++
       "+    return \x7b\"email\": api_response.get(\"email\", \"not_provided@example.com\")\x7d\n" },
   { signature := "ConnectionError",
     analysis := "Database or external service connection failed.",
     fix := "Add retry logic with exponential backoff and connection pooling.",
     patch := "\n+import time\n+from functools import wraps\n+\n" ++
       "+def retry_connection(max_retries=3, delay=1):\n+    def decorator(func):\n" ++
       "+        @wraps(func)\n+        def wrapper(*args, **kwargs):\n" ++
       "+            for attempt in range(max_retries):\n+                try:\n" ++
       "+                    return func(*args, **kwargs)\n" ++
       "+                except ConnectionError:\n" ++
       "+                    if attempt < max_retries - 1:\n" ++
       "+                        time.sleep(delay * (2 ** attempt))\n" ++
       "+            raise ConnectionError(\"Max retries exceeded\")\n" ++
       "+        return wrapper\n+    return decorator\n" },
   { signature := "TimeoutError",
     analysis := "External service request timed out.",
     fix := "Implement circuit breaker pattern and async requests with timeout handling.",
     patch := "\n+import asyncio\n+\n+async def call_with_timeout(func, timeout=10):\n" ++
       "+    try:\n+        return await asyncio.wait_for(func(), timeout=timeout)\n" ++
       "+    except asyncio.TimeoutError:\n" ++
       "+        return \x7b\"error\": \"Service temporarily unavailable\"\x7d\n" },
   { signature := "ValueError",
     analysis := "Invalid value passed to function (e.g., converting non-numeric string to number).",
     fix := "Add input validation before processing.",
     patch := "\n-    total = float(price) * 1.18\n+    try:\n" ++
       "+        total = float(price) * 1.18\n+    except ValueError:\n" ++
       "+        total = 0.0\n+        # Log the error for debugging\n" },
   { signature := "PermissionError",
     analysis := "Unauthorized access attempt detected.",
     fix := "Implement proper authentication middleware and role-based access control.",
     patch := "\n+from functools import wraps\n+\n+def require_permission(permission):\n" ++
       "+    def decorator(func):\n+        @wraps(func)\n" ++
       "+        def wrapper(user, *args, **kwargs):\n" ++
       "+            if permission in user.permissions:\n" ++
       "+                return func(user, *args, **kwargs)\n" ++
       "+            raise HTTPException(403, \"Access denied\")\n" ++
       "+        return wrapper\n+    return decorator\n" },
   { signature := "FileNotFoundError",
     analysis := "Attempting to read a file that doesn\x27t exist.",
     fix := "Add file existence check and provide fallback configuration.",
     patch := "\n+import os\n+\n-    with open(\"/etc/app/missing-config.yaml\", \"r\") as f:\n" ++
       "-        return \x7b\"config\": f.read()\x7d\n" ++
       "+    config_path = \"/etc/app/missing-config.yaml\"\n" ++
       "+    if os.path.exists(config_path):\n" ++
       "+        with open(config_path, \"r\") as f:\n" ++
       "+            return \x7b\"config\": f.read()\x7d\n+    else:\n" ++
       "+        return \x7b\"config\": \"default_configuration\"\x7d\n" }]

/-- The `for error_key, fix_info in fix_database.items()` loop with its
early `return`: first matching entry, if any. -/
def findFix : List FixEntry → String → Option FixEntry
  | [], _ => none
  | e :: rest, error_type =>
      if sigMatches e.signature error_type then some e else findFix rest error_type

/-- `analyze_error` from the source.  `error_message` and `stacktrace`
are accepted but unused, exactly as in the source. -/
def analyze_error (error_type error_message stacktrace : String) : ClassificationResult :=
  match findFix fix_database error_type with
  | some e =>
      { error_type := error_type, analysis := e.analysis, suggested_fix := e.fix,
        patch := some e.patch, confidence := 0.85 }
  | none =>
      { error_type := error_type,
        analysis := ("Unknown error type: ") ++ error_type ++ (". Manual investigation required."),
        suggested_fix := ("Review the stacktrace and add appropriate error handling."),
        patch := none, confidence := 0.3 }

/-- Modelled from the spec's matching rule (the reference definition of
claim C1): scan the ordered knowledge base for the first entry whose
lowered signature is an infix (substring) of the lowered input, in the
mathematical sense of `List.IsInfix`; otherwise the fixed fallback. -/
def classify_spec (error_type : String) : ClassificationResult :=
  match fix_database.find?
      (fun e => decide ((lowerPy e.signature).toList <:+: (lowerPy error_type).toList)) with
  | some e =>
      { error_type := error_type, analysis := e.analysis, suggested_fix := e.fix,
        patch := some e.patch, confidence := 0.85 }
  | none =>
      { error_type := error_type,
        analysis := ("Unknown error type: ") ++ error_type ++ (". Manual investigation required."),
        suggested_fix := ("Review the stacktrace and add appropriate error handling."),
        patch := none, confidence := 0.3 }

/-- The dict returned by `create_github_pr` (its `Optional[str]` return
annotation is wrong in the source; it returns this dict). -/
structure PRInfo where
  branch_name : String
  pr_title : String
  pr_body : String
  instructions : String
deriving Repr, DecidableEq

/-- Python `fix_info.get('patch', 'No patch available')` followed by
f-string interpolation: the `patch` key is always present (both branches
of `analyze_error` set it), so the `.get` default is never used; when the
stored value is `None`, the f-string renders it as the text `None`. -/
def renderedPatch : Option String → String
  | some p => p
  | none => "None"

/-- The f-string assigned to `pr_body` in `create_github_pr`, as a
function of the interpolated fragments. -/
def prBodyRender (issue_id analysis suggested_fix patch_text : String) : String :=
  "\n## ü§ñ AI-Generated Fix\n\n**Issue ID:** " ++ issue_id ++
    "\n\n### Analysis\n" ++ analysis ++
    "\n\n### Suggested Fix\n" ++ suggested_fix ++
    "\n\n### Patch\n```diff\n" ++ patch_text ++
    "\n```\n\n---\n*This PR was automatically generated by the MCP AI Debugging System.*\n"

/-- `create_github_pr` from the source.  All `.get` calls hit keys that
`analyze_error` always populates, so they return the stored values. -/
def create_github_pr (issue_id : String) (fix_info : ClassificationResult) : PRInfo :=
  let branch_name := ("fix/sentry-issue-") ++ issue_id
  { branch_name := branch_name,
    pr_title := ("[Auto-Fix] ") ++ fix_info.error_type,
    pr_body :=
      "\n## ü§ñ AI-Generated Fix\n\n**Issue ID:** " ++ issue_id ++
        "\n\n### Analysis\n" ++ fix_info.analysis ++
        "\n\n### Suggested Fix\n" ++ fix_info.suggested_fix ++
        "\n\n### Patch\n```diff\n" ++ renderedPatch fix_info.patch ++
        "\n```\n\n---\n*This PR was automatically generated by the MCP AI Debugging System.*\n",
    instructions :=
      "\nTo apply this fix manually:\n1. git checkout -b " ++ branch_name ++
        "\n2. Apply the patch above to the relevant file\n3. git commit -m \"fix: " ++
        fix_info.error_type ++ "\"\n4. git push origin " ++ branch_name ++
        "\n5. Create PR on GitHub\n" }

/-- One record of `issues_store`.  The webhook handler creates it with
the four keys `id`, `received_at`, `payload`, `status`; `process_issue`
later adds `ai_analysis`, modelled as an `Option` field. -/
structure Issue where
  id : String
  received_at : String
  payload : JValue
  status : String
  ai_analysis : Option ClassificationResult

/-- Placeholder used only for out-of-range `List.getD` reads. -/
def defaultIssue : Issue :=
  { id := "", received_at := "", payload := JValue.null, status := "", ai_analysis := none }

/-- The `try: payload = await request.json() except: payload = {"raw": await request.body()}`
prelude of the webhook handler.  The parse outcome is an input: parsing
is done by the framework, outside this repository. -/
def wrapPayload (parsed : Except String JValue) (raw_body : String) : JValue :=
  match parsed with
  | Except.ok payload => payload
  | Except.error _ => JValue.obj [(("raw"), JValue.bytes raw_body)]

/-- `receive_sentry_webhook` from the source: build the issue dict,
append it to the store, return the ack response `(status, issue_id)`.
`now` stands for `datetime.now().isoformat()`.  The handler has no
`await` between reading `len(issues_store)` and the `append`, so on the
single asyncio event loop this block is atomic (header note). -/
def receive_sentry_webhook (parsed : Except String JValue) (raw_body now : String)
    (issues_store : List Issue) : (String × String) × List Issue :=
  let issue : Issue :=
    { id := ("issue-") ++ toString (issues_store.length + 1),
      received_at := now,
      payload := wrapPayload parsed raw_body,
      status := ("received"),
      ai_analysis := none }
  ((("received"), issue.id), issues_store ++ [issue])

/-- The `error_type` extraction in `process_issue`:
`payload.get("data", {}) if isinstance(payload, dict) else {}` followed by
`data.get("error", {}).get("type", "UnknownError") if isinstance(data, dict) else "UnknownError"`.
The second `.get` is applied to whatever `data.get("error", {})` returned;
if that value is present but not a dict, Python raises `AttributeError`. -/
def extract_error_type (payload : JValue) : Except String JValue :=
  let data : JValue :=
    match payload with
    | JValue.obj m => (jlookup m ("data")).getD (JValue.obj [])
    | _ => JValue.obj []
  match data with
  | JValue.obj m =>
      match (jlookup m ("error")).getD (JValue.obj []) with
      | JValue.obj m2 => Except.ok ((jlookup m2 ("type")).getD (JValue.str ("UnknownError")))
      | _ => Except.error ("AttributeError")
  | _ => Except.ok (JValue.str ("UnknownError"))

/-- The two mutating assignments at the end of `process_issue` (they run
with no `await` in between, hence atomically). -/
def setAnalyzed (issue : Issue) (fix_info : ClassificationResult) : Issue :=
  { issue with ai_analysis := some fix_info, status := ("analyzed") }

/-- `process_issue` from the source, acting on one issue record.  An
extracted `error_type` that is not a string makes `analyze_error` raise
at `error_type.lower()` (`AttributeError`), before any mutation. -/
def process_issue (issue : Issue) : Except String Issue :=
  match extract_error_type issue.payload with
  | Except.error e => Except.error e
  | Except.ok (JValue.str error_type) =>
      Except.ok (setAnalyzed issue (analyze_error error_type ("") ("")))
  | Except.ok _ => Except.error ("AttributeError")

/-- Response dict of `POST /analyze`. -/
structure ManualResponse where
  status : String
  analysis : ClassificationResult
  pr_info : PRInfo
deriving Repr, DecidableEq

/-- Response dict of `GET /test/{error_type}`. -/
structure TestResponse where
  error_type : String
  analysis : ClassificationResult
  pr_info : PRInfo
deriving Repr, DecidableEq

/-- Rendering of the `error_message` / `stacktrace` arguments fetched by
`analyze_manual`; `analyze_error` never reads them, so representing a
non-string value by `""` does not affect any observable result. -/
def jstrOrEmpty : Option JValue → String
  | some (JValue.str s) => s
  | _ => ""

/-- `analyze_manual` (`POST /analyze`) from the source.  The body parse
`data = await request.json()` is unguarded: a parse failure propagates.
`data.get` on a non-dict body, or `error_type.lower()` on a non-string
`error_type`, raises `AttributeError`.  The store is read (for the
`manual-<len>` id) but never written; the second component returns it. -/
def analyze_manual (parsed : Except String JValue) (issues_store : List Issue) :
    Except String ManualResponse × List Issue :=
  match parsed with
  | Except.error e => (Except.error e, issues_store)
  | Except.ok data =>
    match data with
    | JValue.obj m =>
        match (jlookup m ("error_type")).getD (JValue.str ("UnknownError")) with
        | JValue.str error_type =>
            let fix_info := analyze_error error_type
              (jstrOrEmpty (jlookup m ("error_message")))
              (jstrOrEmpty (jlookup m ("stacktrace")))
            let pr_info := create_github_pr (("manual-") ++ toString issues_store.length) fix_info
            (Except.ok { status := ("success"), analysis := fix_info, pr_info := pr_info },
             issues_store)
        | _ => (Except.error ("AttributeError"), issues_store)
    | _ => (Except.error ("AttributeError"), issues_store)

/-- `test_analysis` (`GET /test/{error_type}`) from the source; the path
parameter is always a string, and the store is never touched. -/
def test_analysis (error_type : String) (issues_store : List Issue) :
    TestResponse × List Issue :=
  let fix_info := analyze_error error_type ("") ("")
  let pr_info := create_github_pr (("test-") ++ error_type) fix_info
  ({ error_type := error_type, analysis := fix_info, pr_info := pr_info }, issues_store)

theorem listStartsWith_iff (n : List Char) : ∀ h : List Char,
    listStartsWith n h = true ↔ n <+: h := by
  induction n with
  | nil => intro h; simp [listStartsWith]
  | cons a as ih =>
    intro h
    cases h with
    | nil => simp [listStartsWith]
    | cons b bs => simp [listStartsWith, List.cons_prefix_cons, ih bs]

theorem listContainsSub_iff (n : List Char) : ∀ h : List Char,
    listContainsSub n h = true ↔ n <:+: h := by
  intro h
  induction h with
  | nil => simp [listContainsSub, List.isEmpty_iff]
  | cons b bs ih =>
    rw [listContainsSub, Bool.or_eq_true, listStartsWith_iff, ih, List.infix_cons_iff]

theorem sigMatches_eq_decide (sig error_type : String) :
    sigMatches sig error_type =
      decide ((lowerPy sig).toList <:+: (lowerPy error_type).toList) := by
  have h := listContainsSub_iff (lowerPy sig).toList (lowerPy error_type).toList
  rw [sigMatches]
  cases hb : listContainsSub (lowerPy sig).toList (lowerPy error_type).toList
  · rw [hb] at h
    have hn : ¬ (lowerPy sig).toList <:+: (lowerPy error_type).toList := by
      intro hp
      exact Bool.false_ne_true (h.mpr hp)
    exact (decide_eq_false hn).symm
  · rw [hb] at h
    exact (decide_eq_true (h.mp rfl)).symm

theorem find?_ext {α : Type} (p q : α → Bool) (l : List α) (hpq : ∀ a, p a = q a) :
    l.find? p = l.find? q := by
  induction l with
  | nil => rfl
  | cons a t ih => simp only [List.find?, hpq a, ih]

theorem findFix_eq_find? (l : List FixEntry) (error_type : String) :
    findFix l error_type = l.find? (fun e => sigMatches e.signature error_type) := by
  induction l with
  | nil => rfl
  | cons e t ih =>
    rw [findFix, List.find?]
    cases hb : sigMatches e.signature error_type <;> simp [hb, ih]

/-- C1: for every input string `error_type` (and any message/stacktrace),
`analyze_error` equals the reference classifier `classify_spec`: first
case-insensitive-substring match over the knowledge base wins with
confidence 0.85, the eight signatures occur in the fixed source order,
the fallback returns the "Unknown error type" analysis with no patch and
confidence 0.30, and no other confidence value is ever produced. -/
theorem claim1_classifier_matches_reference (et m s : String) :
    analyze_error et m s = classify_spec et ∧
    fix_database.map FixEntry.signature =
      ["ZeroDivisionError", "AttributeError", "KeyError", "ConnectionError",
       "TimeoutError", "ValueError", "PermissionError", "FileNotFoundError"] ∧
    ((analyze_error et m s).confidence = 0.85 ∨ (analyze_error et m s).confidence = 0.3) := by
  have hfind : findFix fix_database et =
      fix_database.find?
        (fun e => decide ((lowerPy e.signature).toList <:+: (lowerPy et).toList)) := by
    rw [findFix_eq_find?]
    exact find?_ext _ _ _ (fun e => sigMatches_eq_decide e.signature et)
  refine ⟨?_, rfl, ?_⟩
  · unfold analyze_error classify_spec
    rw [hfind]
  · unfold analyze_error
    cases hf : findFix fix_database et with
    | some e => exact Or.inl rfl
    | none => exact Or.inr rfl

/-- Global server state: the `issues_store` list plus the indices of
scheduled-but-not-yet-run background tasks (`BackgroundTasks.add_task`
schedules `process_issue` exactly once per webhook call). -/
structure SysState where
  issues : List Issue
  pending : List Nat

/-- Server state at startup. -/
def initState : SysState := { issues := [], pending := [] }

/-- Atomic store events (header note on asyncio atomicity): one webhook
intake, or the run of one scheduled background task. -/
inductive Event where
  | intake (parsed : Except String JValue) (raw_body now : String)
  | runTask (i : Nat)

/-- Effect of one event on the server state.  A background task that
raises (claim C3's bug) leaves its issue untouched; either way the task
is consumed and never re-runs. -/
def execEvent (s : SysState) : Event → SysState
  | Event.intake parsed raw_body now =>
      { issues := (receive_sentry_webhook parsed raw_body now s.issues).2,
        pending := s.pending ++ [s.issues.length] }
  | Event.runTask i =>
      if i ∈ s.pending then
        match process_issue (s.issues.getD i defaultIssue) with
        | Except.ok issue2 => { issues := s.issues.set i issue2, pending := s.pending.erase i }
        | Except.error _ => { issues := s.issues, pending := s.pending.erase i }
      else s

/-- Run a whole interleaving of intakes and background tasks. -/
def execTrace (s : SysState) : List Event → SysState
  | [] => s
  | e :: rest => execTrace (execEvent s e) rest

/-- Number of webhook intake calls in a trace. -/
def countIntakes : List Event → Nat
  | [] => 0
  | Event.intake _ _ _ :: rest => countIntakes rest + 1
  | Event.runTask _ :: rest => countIntakes rest

/-- Status of the `k`-th stored issue (for stating transition facts). -/
def statusAt (s : SysState) (k : Nat) : String :=
  (s.issues.getD k defaultIssue).status

/-- C3 (failing input): the extraction in `process_issue` is not total.
With payload `{"data": {"error": "boom"}}` the chained call
`data.get("error", {}).get("type", "UnknownError")` raises
`AttributeError` (a `str` has no `.get`) instead of defaulting to
`"UnknownError"`; an empty payload, by contrast, does default. -/
theorem claim3_extract_raises_on_nondict_error :
    extract_error_type
        (JValue.obj [(("data"), JValue.obj [(("error"), JValue.str ("boom"))])]) =
      Except.error ("AttributeError") ∧
    extract_error_type (JValue.obj []) = Except.ok (JValue.str ("UnknownError")) :=
  ⟨rfl, rfl⟩

/-- C4: the webhook intake succeeds on every raw body: an unparseable
body is wrapped as `{"raw": <bytes>}` rather than rejected, the stored
issue has status `received`, and the response is
`{"status": "received", "issue_id": <id>}`. -/
theorem claim4_webhook_never_fails (parsed : Except String JValue)
    (raw_body now : String) (store : List Issue) :
    receive_sentry_webhook parsed raw_body now store =
      ((("received"), ("issue-") ++ toString (store.length + 1)),
       store ++ [{ id := ("issue-") ++ toString (store.length + 1), received_at := now,
                   payload := wrapPayload parsed raw_body, status := ("received"),
                   ai_analysis := none }]) ∧
    wrapPayload (Except.error ("JSONDecodeError")) raw_body =
      JValue.obj [(("raw"), JValue.bytes raw_body)] :=
  ⟨rfl, rfl⟩

/-- C6: classification depends on `error_type` alone; the message and
stacktrace arguments never influence the result (two-run
noninterference). -/
theorem claim6_message_stacktrace_noninterference
    (error_type m1 s1 m2 s2 : String) :
    analyze_error error_type m1 s1 = analyze_error error_type m2 s2 := rfl

set_option maxRecDepth 100000 in
/-- C7 (counterexample): for an unmatched error type the stored `patch`
is `None`, and since the `patch` KEY is present, `fix_info.get('patch',
'No patch available')` returns that `None`, which the f-string renders
as the text `None` inside the ```diff``` block — not as an empty/absent
block. -/
theorem claim7_counterexample :
    (analyze_error ("MysteryFailure") ("") ("")).patch = none ∧
    (create_github_pr ("manual-0") (analyze_error ("MysteryFailure") ("") (""))).pr_body ≠
      prBodyRender ("manual-0")
        (analyze_error ("MysteryFailure") ("") ("")).analysis
        (analyze_error ("MysteryFailure") ("") ("")).suggested_fix ("") ∧
    listContainsSub (("None").toList)
      ((create_github_pr ("manual-0") (analyze_error ("MysteryFailure") ("") (""))).pr_body.toList)
      = true := by
  refine ⟨rfl, ?_, ?_⟩ <;> decide

/-- C7 (amended): `branch_name` is `fix/sentry-issue-` ++ issue id and
`pr_body` is the deterministic markdown rendering of the result's
analysis, suggested fix and patch, where an absent patch renders as the
placeholder text `None` (Python's rendering of `None`), not as an
empty/absent code block. -/
theorem claim7_pr_descriptor (issue_id : String) (r : ClassificationResult) :
    (create_github_pr issue_id r).branch_name = ("fix/sentry-issue-") ++ issue_id ∧
    (create_github_pr issue_id r).pr_body =
      prBodyRender issue_id r.analysis r.suggested_fix (renderedPatch r.patch) ∧
    renderedPatch none = ("None") :=
  ⟨rfl, rfl, rfl⟩

/-- Concrete freshly-received issue used for the C8 instances. -/
def issueReceivedExample : Issue :=
  { id := ("issue-1"), received_at := ("t"), payload := JValue.obj [],
    status := ("received"), ai_analysis := none }

/-- C8 (counterexample): running `process_issue` on an issue that is
already analyzed silently succeeds — it re-derives the same analysis,
overwrites the record and reports no error whatsoever. -/
theorem claim8_counterexample :
    process_issue (setAnalyzed issueReceivedExample (analyze_error ("UnknownError") ("") (""))) =
      Except.ok (setAnalyzed issueReceivedExample (analyze_error ("UnknownError") ("") (""))) :=
  rfl

/-- C8 (amended): a double update is NOT surfaced: for any issue whose
extraction yields a string error type, the first `process_issue` yields
the analyzed record, and a second `process_issue` of that analyzed
record again returns successfully (silently overwriting), with no error
condition raised. -/
theorem claim8_double_update_silent (issue : Issue) (et : String)
    (h : extract_error_type issue.payload = Except.ok (JValue.str et)) :
    process_issue issue = Except.ok (setAnalyzed issue (analyze_error et ("") (""))) ∧
    (setAnalyzed issue (analyze_error et ("") (""))).status = ("analyzed") ∧
    process_issue (setAnalyzed issue (analyze_error et ("") (""))) =
      Except.ok (setAnalyzed issue (analyze_error et ("") (""))) := by
  have hp : (setAnalyzed issue (analyze_error et ("") (""))).payload = issue.payload := rfl
  refine ⟨?_, rfl, ?_⟩
  · unfold process_issue
    rw [h]
  · unfold process_issue
    rw [hp, h]
    rfl

/-- C8 witness: the amended statement instantiated at a concrete
freshly-received issue with an empty-object payload. -/
theorem claim8_witness :
    process_issue issueReceivedExample =
      Except.ok (setAnalyzed issueReceivedExample (analyze_error ("UnknownError") ("") (""))) ∧
    (setAnalyzed issueReceivedExample (analyze_error ("UnknownError") ("") (""))).status =
      ("analyzed") ∧
    process_issue (setAnalyzed issueReceivedExample (analyze_error ("UnknownError") ("") (""))) =
      Except.ok (setAnalyzed issueReceivedExample (analyze_error ("UnknownError") ("") (""))) :=
  claim8_double_update_silent issueReceivedExample ("UnknownError") rfl

/-- C9: the ad-hoc endpoints `POST /analyze` and `GET /test/{error_type}`
return the issues store unchanged on every input (including bodies whose
processing raises). -/
theorem claim9_adhoc_preserves_store (parsed : Except String JValue)
    (error_type : String) (store : List Issue) :
    (analyze_manual parsed store).2 = store ∧ (test_analysis error_type store).2 = store := by
  constructor
  · unfold analyze_manual
    split
    · rfl
    · split
      all_goals try rfl
      split
      all_goals rfl
  · rfl

/-- C10: unlike the webhook intake, `POST /analyze` does not recover
from malformed input: its unguarded `await request.json()` propagates
the parse failure, so the call fails with a transport-level fault and no
classification result is produced. -/
theorem claim10_manual_parse_fault_propagates (e : String) (store : List Issue) :
    (analyze_manual (Except.error e) store).1 = Except.error e := rfl

/-- The issue record built by the webhook handler when the store has `n`
entries (definitionally the record inside `receive_sentry_webhook`). -/
def newIssue (parsed : Except String JValue) (raw_body now : String) (n : Nat) : Issue :=
  { id := ("issue-") ++ toString (n + 1), received_at := now,
    payload := wrapPayload parsed raw_body, status := ("received"), ai_analysis := none }

theorem execEvent_intake_issues (s : SysState) (p : Except String JValue) (b n : String) :
    (execEvent s (Event.intake p b n)).issues =
      s.issues ++ [newIssue p b n s.issues.length] := rfl

theorem execEvent_runTask_issues (s : SysState) (i : Nat) :
    (execEvent s (Event.runTask i)).issues = s.issues ∨
    ∃ y, process_issue (s.issues.getD i defaultIssue) = Except.ok y ∧
      i ∈ s.pending ∧ (execEvent s (Event.runTask i)).issues = s.issues.set i y := by
  simp only [execEvent]
  by_cases hp : i ∈ s.pending
  · rw [if_pos hp]
    cases hpr : process_issue (s.issues.getD i defaultIssue) with
    | error e => left; rfl
    | ok y => right; exact ⟨y, rfl, hp, rfl⟩
  · rw [if_neg hp]
    left
    rfl

theorem process_issue_ok {x y : Issue} (h : process_issue x = Except.ok y) :
    y.id = x.id ∧ y.received_at = x.received_at ∧ y.payload = x.payload ∧
    y.status = ("analyzed") ∧ ∃ r, y.ai_analysis = some r := by
  unfold process_issue at h
  split at h
  · exact Except.noConfusion h
  · injection h with h2
    subst h2
    exact ⟨rfl, rfl, rfl, rfl, ⟨_, rfl⟩⟩
  · exact Except.noConfusion h

theorem getD_set_self (l : List Issue) (i : Nat) (y : Issue) (h : i < l.length) :
    (l.set i y).getD i defaultIssue = y := by
  induction l generalizing i with
  | nil => exact absurd h (by simp)
  | cons a t ih =>
    cases i with
    | zero => rfl
    | succ j => exact ih j (by simpa using h)

theorem getD_set_ne (l : List Issue) (i k : Nat) (y : Issue) (h : k ≠ i) :
    (l.set i y).getD k defaultIssue = l.getD k defaultIssue := by
  induction l generalizing i k with
  | nil => rfl
  | cons a t ih =>
    cases i with
    | zero =>
      cases k with
      | zero => exact absurd rfl h
      | succ kk => rfl
    | succ j =>
      cases k with
      | zero => rfl
      | succ kk => exact ih j kk (fun he => h (by rw [he]))

theorem getD_append_lt (l l2 : List Issue) (k : Nat) (h : k < l.length) :
    (l ++ l2).getD k defaultIssue = l.getD k defaultIssue := by
  induction l generalizing k with
  | nil => exact absurd h (by simp)
  | cons a t ih =>
    cases k with
    | zero => rfl
    | succ kk => exact ih kk (by simpa using h)

theorem getD_mem (l : List Issue) (k : Nat) (h : k < l.length) :
    l.getD k defaultIssue ∈ l := by
  induction l generalizing k with
  | nil => exact absurd h (by simp)
  | cons a t ih =>
    cases k with
    | zero => exact List.Mem.head t
    | succ kk => exact List.Mem.tail a (ih kk (by simpa using h))

theorem map_id_set (l : List Issue) (i : Nat) (y : Issue)
    (h : y.id = (l.getD i defaultIssue).id) :
    (l.set i y).map Issue.id = l.map Issue.id := by
  induction l generalizing i with
  | nil => rfl
  | cons a t ih =>
    cases i with
    | zero =>
      have h0 : y.id = a.id := h
      simp [h0]
    | succ j =>
      have hj : y.id = (t.getD j defaultIssue).id := h
      simp [ih j hj]

/-- Ids of the first `n` issues as the webhook handler assigns them. -/
def idsUpTo (n : Nat) : List String :=
  (List.range n).map (fun k => ("issue-") ++ toString (k + 1))

/-- The store id invariant preserved by every event. -/
def idsOk (s : SysState) : Prop :=
  s.issues.map Issue.id = idsUpTo s.issues.length

theorem idsUpTo_succ (n : Nat) :
    idsUpTo (n + 1) = idsUpTo n ++ [("issue-") ++ toString (n + 1)] := by
  unfold idsUpTo
  rw [List.range_succ, List.map_append]
  rfl

theorem idsOk_execEvent (s : SysState) (e : Event) (h : idsOk s) :
    idsOk (execEvent s e) := by
  cases e with
  | intake p b n =>
    unfold idsOk
    rw [execEvent_intake_issues]
    rw [List.map_append, List.length_append]
    unfold idsOk at h
    rw [h]
    have hlast : [(newIssue p b n s.issues.length).id] =
        [("issue-") ++ toString (s.issues.length + 1)] := rfl
    rw [show (List.map Issue.id [newIssue p b n s.issues.length]) =
        [("issue-") ++ toString (s.issues.length + 1)] from rfl]
    rw [show (s.issues.length + [newIssue p b n s.issues.length].length) =
        s.issues.length + 1 from rfl]
    exact (idsUpTo_succ s.issues.length).symm
  | runTask i =>
    rcases execEvent_runTask_issues s i with heq | ⟨y, hpr, hmem, heq⟩
    · unfold idsOk
      rw [heq]
      exact h
    · unfold idsOk
      rw [heq, map_id_set _ _ _ (process_issue_ok hpr).1, List.length_set]
      exact h

theorem idsOk_execTrace (tr : List Event) (s : SysState) (h : idsOk s) :
    idsOk (execTrace s tr) := by
  induction tr generalizing s with
  | nil => exact h
  | cons e rest ih => exact ih (execEvent s e) (idsOk_execEvent s e h)

theorem length_execTrace (tr : List Event) (s : SysState) :
    (execTrace s tr).issues.length = s.issues.length + countIntakes tr := by
  induction tr generalizing s with
  | nil => rfl
  | cons e rest ih =>
    cases e with
    | intake p b n =>
      rw [execTrace, ih, countIntakes]
      have hl : (execEvent s (Event.intake p b n)).issues.length = s.issues.length + 1 := by
        rw [execEvent_intake_issues, List.length_append]
        rfl
      rw [hl]
      omega
    | runTask i =>
      rw [execTrace, ih, countIntakes]
      have hl : (execEvent s (Event.runTask i)).issues.length = s.issues.length := by
        rcases execEvent_runTask_issues s i with heq | ⟨y, _, _, heq⟩
        · rw [heq]
        · rw [heq, List.length_set]
      rw [hl]

/-- C2: after any interleaving of intake calls and background tasks with
`N` intakes, the stored ids are exactly `issue-1 .. issue-N`, in
insertion order — unique, dense, strictly increasing, starting at 1.
(Each intake's length-read and append are separated by no `await`, so
they form one atomic event on the single asyncio event loop.) -/
theorem claim2_issue_ids_dense (tr : List Event) :
    (execTrace initState tr).issues.map Issue.id =
      (List.range (countIntakes tr)).map (fun k => ("issue-") ++ toString (k + 1)) := by
  have h := idsOk_execTrace tr initState rfl
  unfold idsOk at h
  rw [h, length_execTrace]
  rw [show initState.issues.length + countIntakes tr = countIntakes tr from by
    rw [show initState.issues.length = 0 from rfl]; omega]
  rfl

/-- The status/analysis invariant of every stored issue. -/
def lifecycleOk (s : SysState) : Prop :=
  ∀ iss ∈ s.issues,
    (iss.status = ("received") ∨ iss.status = ("analyzed")) ∧
    (iss.ai_analysis = none ↔ iss.status = ("received"))

theorem lifecycleOk_execEvent (s : SysState) (e : Event) (h : lifecycleOk s) :
    lifecycleOk (execEvent s e) := by
  cases e with
  | intake p b n =>
    intro iss hmem
    rw [execEvent_intake_issues] at hmem
    rcases List.mem_append.mp hmem with hold | hnew
    · exact h iss hold
    · rw [List.mem_singleton.mp hnew]
      exact ⟨Or.inl rfl, by constructor <;> intro <;> rfl⟩
  | runTask i =>
    intro iss hmem
    rcases execEvent_runTask_issues s i with heq | ⟨y, hpr, _, heq⟩
    · rw [heq] at hmem
      exact h iss hmem
    · rw [heq] at hmem
      rcases List.mem_or_eq_of_mem_set hmem with hold | hy
      · exact h iss hold
      · obtain ⟨-, -, -, hst, r, han⟩ := process_issue_ok hpr
        subst hy
        refine ⟨Or.inr hst, ?_⟩
        rw [han, hst]
        constructor
        · intro hx
          exact absurd hx (Option.some_ne_none r)
        · intro hx
          exact absurd hx (by decide)

theorem lifecycleOk_execTrace (tr : List Event) (s : SysState) (h : lifecycleOk s) :
    lifecycleOk (execTrace s tr) := by
  induction tr generalizing s with
  | nil => exact h
  | cons e rest ih => exact ih (execEvent s e) (lifecycleOk_execEvent s e h)

theorem status_step (s : SysState) (e : Event) (hs : lifecycleOk s) (k : Nat)
    (hk : k < s.issues.length) :
    statusAt (execEvent s e) k = statusAt s k ∨
      (statusAt s k = ("received") ∧ statusAt (execEvent s e) k = ("analyzed")) := by
  cases e with
  | intake p b n =>
    left
    unfold statusAt
    rw [execEvent_intake_issues]
    exact congrArg Issue.status (getD_append_lt s.issues _ k hk)
  | runTask i =>
    rcases execEvent_runTask_issues s i with heq | ⟨y, hpr, _, heq⟩
    · left
      unfold statusAt
      rw [heq]
    · by_cases hki : k = i
      · subst hki
        obtain ⟨-, -, -, hst, -⟩ := process_issue_ok hpr
        have hnew : statusAt (execEvent s (Event.runTask k)) k = y.status := by
          unfold statusAt
          rw [heq, getD_set_self _ _ _ hk]
        rcases (hs _ (getD_mem s.issues k hk)).1 with hr | ha
        · right
          exact ⟨hr, by rw [hnew, hst]⟩
        · left
          rw [hnew, hst]
          exact ha.symm
      · left
        unfold statusAt
        rw [heq, getD_set_ne _ _ _ _ hki]

/-- C5: in every reachable store state, each issue's status is
`received` or `analyzed` and its analysis is present exactly when the
status is `analyzed`; moreover any single event changes an issue's
status either not at all or from `received` to `analyzed` — the
transition happens at most once and is never reversed. -/
theorem claim5_status_lifecycle :
    (∀ tr : List Event, ∀ iss ∈ (execTrace initState tr).issues,
        (iss.status = ("received") ∨ iss.status = ("analyzed")) ∧
        (iss.ai_analysis = none ↔ iss.status = ("received"))) ∧
    (∀ tr : List Event, ∀ e : Event, ∀ k : Nat,
        k < (execTrace initState tr).issues.length →
        statusAt (execEvent (execTrace initState tr) e) k =
            statusAt (execTrace initState tr) k ∨
          (statusAt (execTrace initState tr) k = ("received") ∧
           statusAt (execEvent (execTrace initState tr) e) k = ("analyzed"))) := by
  have hinit : lifecycleOk initState := by
    intro iss hmem
    exact absurd hmem (List.not_mem_nil iss)
  constructor
  · intro tr
    exact lifecycleOk_execTrace tr initState hinit
  · intro tr e k hk
    exact status_step (execTrace initState tr) e
      (lifecycleOk_execTrace tr initState hinit) k hk

/-- One intake of an empty-object payload, for the C5 witness. -/
def traceExample : List Event := [Event.intake (Except.ok (JValue.obj [])) ("") ("t")]

/-- C5 witness: the lifecycle statement instantiated at the state after
one intake, for its single stored issue, and at the step that runs the
scheduled background task. -/
theorem claim5_witness :
    ((((execTrace initState traceExample).issues.getD 0 defaultIssue).status = ("received") ∨
      ((execTrace initState traceExample).issues.getD 0 defaultIssue).status = ("analyzed")) ∧
     (((execTrace initState traceExample).issues.getD 0 defaultIssue).ai_analysis = none ↔
      ((execTrace initState traceExample).issues.getD 0 defaultIssue).status = ("received"))) ∧
    (statusAt (execEvent (execTrace initState traceExample) (Event.runTask 0)) 0 =
        statusAt (execTrace initState traceExample) 0 ∨
      (statusAt (execTrace initState traceExample) 0 = ("received") ∧
       statusAt (execEvent (execTrace initState traceExample) (Event.runTask 0)) 0 =
         ("analyzed"))) :=
  ⟨claim5_status_lifecycle.1 traceExample _
      (getD_mem (execTrace initState traceExample).issues 0 (by decide)),
   claim5_status_lifecycle.2 traceExample (Event.runTask 0) 0 (by decide)⟩
